import Mathlib

/-!
# Verification development for `src/app.js` (virtual birthday card)

Shallow embedding of the gesture detector (`FaceBlowDetector`) and of the
celebration timeline (`App`).

Conventions of the embedding
* JavaScript numbers holding landmark coordinates are exact rationals; the
  frame counter `blowFrames` and `candlesLit` are integers.
* A callback invocation is recorded as an entry of a trace, in call order.
* A `TypeError` raised by a property read on `undefined` is the `none`
  result of `isBlowingPose`, and the `threw` flag of a processed frame.
-/

namespace Cake

/-! ## Data model of the detector -/

/-- One face-mesh landmark, a point in normalized image coordinates. -/
structure Landmark where
  x : ℚ
  y : ℚ
deriving DecidableEq

/-- The landmark array of one face; reading an index past the end gives `undefined`. -/
abbrev Face := List Landmark

/-- The per-frame result object; `multiFaceLandmarks` may be missing. -/
structure Results where
  multiFaceLandmarks : Option (List Face)
deriving DecidableEq

/-- The callbacks handed to the detector's constructor. -/
inductive Callback where
  | onBlow
  | onBlowing (active : Bool)
  | onReady
  | onError
deriving DecidableEq

/-- The MediaPipe camera helper held in `mpCamera`. -/
structure Camera where
  started : Bool
deriving DecidableEq

/-- The fields of `class FaceBlowDetector`. `hasOnReady` records whether
`callbacks.onReady` is truthy, `faceMesh` whether the field is non-null. -/
structure FaceBlowDetector where
  hasOnReady : Bool
  running : Bool
  faceMesh : Bool
  mpCamera : Option Camera
  blowFrames : Int
  blowThreshold : Int
  ready : Bool
deriving DecidableEq

/-- The constructor of `FaceBlowDetector` (app.js 100-108). -/
def FaceBlowDetector.new (hasOnReady : Bool) : FaceBlowDetector :=
  { hasOnReady := hasOnReady
    running := false
    faceMesh := false
    mpCamera := none
    blowFrames := 0
    blowThreshold := 15
    ready := false }

/-- The method `isBlowingPose` (app.js 179-196). The result is `none` when the
method throws: a required landmark is `undefined` and its coordinate is read. -/
def isBlowingPose (landmarks : Face) : Option Bool :=
  match landmarks[13]?, landmarks[14]?, landmarks[78]?, landmarks[308]? with
  | some upperInner, some lowerInner, some leftCorner, some rightCorner =>
    let openY : ℚ := |lowerInner.y - upperInner.y|
    let width : ℚ := |rightCorner.x - leftCorner.x|
    if width < 0.001 then some false
    else
      let ratio : ℚ := openY / width
      some (decide (openY > 0.01) && decide (width < 0.15) && decide (ratio > 0.25))
  | _, _, _, _ => none

/-- The outcome of processing one frame: the detector afterwards, the callbacks
invoked in order, and whether the call ended with an exception. -/
structure Step where
  det : FaceBlowDetector
  calls : List Callback
  threw : Bool
deriving DecidableEq

/-- The method `processResults` (app.js 151-177), with the pose classifier it
dispatches to as a parameter. -/
def processResultsWith (pose : Face → Option Bool) (d : FaceBlowDetector)
    (results : Results) : Step :=
  if !d.running then ⟨d, [], false⟩
  else
    match results.multiFaceLandmarks with
    | none => ⟨d, [Callback.onBlowing false], false⟩
    | some [] => ⟨d, [Callback.onBlowing false], false⟩
    | some (face0 :: _) =>
      let readyCalls : List Callback :=
        if !d.ready && d.hasOnReady then [Callback.onReady] else []
      let d1 := { d with ready := true }
      match pose face0 with
      | none => ⟨d1, readyCalls, true⟩
      | some blowing =>
        if blowing then
          let d2 := { d1 with blowFrames := d1.blowFrames + 1 }
          if d2.blowFrames ≥ d2.blowThreshold then
            ⟨{ d2 with running := false },
              readyCalls ++ [Callback.onBlowing true, Callback.onBlow], false⟩
          else ⟨d2, readyCalls ++ [Callback.onBlowing true], false⟩
        else
          ⟨{ d1 with blowFrames := max 0 (d1.blowFrames - 2) },
            readyCalls ++ [Callback.onBlowing false], false⟩

/-- The method `processResults` as the class defines it. -/
def processResults (d : FaceBlowDetector) (results : Results) : Step :=
  processResultsWith isBlowingPose d results

/-- The method `stop` (app.js 198-203): the detector afterwards and the number
of `mpCamera.stop()` calls made. -/
def FaceBlowDetector.stop (d : FaceBlowDetector) : FaceBlowDetector × Nat :=
  let d1 := { d with running := false }
  match d1.mpCamera with
  | some _ => ({ d1 with mpCamera := some ⟨false⟩ }, 1)
  | none => (d1, 0)

/-- The detector after a sequence of frames was delivered to `processResults`. -/
def detAfter (d : FaceBlowDetector) : List Results → FaceBlowDetector
  | [] => d
  | r :: rs => detAfter (processResults d r).det rs

/-- The callbacks invoked while processing each frame of a sequence, frame by frame. -/
def trace (d : FaceBlowDetector) : List Results → List (List Callback)
  | [] => []
  | r :: rs => (processResults d r).calls :: trace (processResults d r).det rs

/-- The number of `onBlow` invocations made while processing each frame. -/
def blowCounts (d : FaceBlowDetector) (fs : List Results) : List Nat :=
  (trace d fs).map (fun cs => cs.count Callback.onBlow)

/-- The blow signal of a frame: the classification of its first face, when the
frame has a face and the classifier returns. -/
def signalOf (r : Results) : Option Bool :=
  match r.multiFaceLandmarks with
  | some (face0 :: _) => isBlowingPose face0
  | _ => none

/-- One update of the reference counter of the specification: a `true` signal
adds 1, a `false` signal subtracts 2 with a floor of 0. -/
def refStep (c : Int) (b : Bool) : Int :=
  if b then c + 1 else max 0 (c - 2)

/-- The reference counter of the specification after a sequence of signals,
starting at 0. -/
def refCounter (bs : List Bool) : Int :=
  bs.foldl refStep 0

/-! ## Data model of the celebration timeline -/

/-- The commands the timeline issues to its collaborators and to the page. -/
inductive Cmd where
  | blowCandle (i : Nat)
  | glowOff
  | musicStop
  | polaroidOpen
  | countdown (n : Nat)
  | capturePhoto
  | shutterSound
  | detectorStop
  | timestamp
  | sceneActive
  | noteOpen
  | confetti (count : Nat)
deriving DecidableEq

/-- The fields of `class App` the timeline reads or writes, with the page state
it toggles: `musicPlaying` is `music.playing`, `candles` holds for `#candle-0..2`
whether the class `blown` is set, `cameraAreaHidden` and `tapBlowBtnHidden` whether
`#camera-area` and `#tap-blow-btn` carry the class `hidden`. -/
structure App where
  blowDetector : Option FaceBlowDetector
  candlesLit : Int
  cameraAvailable : Bool
  musicPlaying : Bool
  candles : List Bool
  cameraAreaHidden : Bool
  tapBlowBtnHidden : Bool
deriving DecidableEq

/-- The constructor of `App` (app.js 340-351), on a page whose manual button
starts hidden. -/
def App.new : App :=
  { blowDetector := none
    candlesLit := 3
    cameraAvailable := false
    musicPlaying := false
    candles := [false, false, false]
    cameraAreaHidden := false
    tapBlowBtnHidden := true }

/-- What the host offers to `FaceBlowDetector.start`: whether the globals
`FaceMesh` and `Camera` are defined, and whether constructing the face mesh,
constructing the camera helper, or starting the camera throws. -/
structure StartEnv where
  faceMeshDefined : Bool
  cameraDefined : Bool
  faceMeshThrows : Bool
  cameraThrows : Bool
  cameraStartThrows : Bool
deriving DecidableEq

/-- The method `start` (app.js 110-149): the detector afterwards, the callbacks
invoked, and the boolean the returned promise resolves to. -/
def FaceBlowDetector.start (env : StartEnv) (d : FaceBlowDetector) :
    FaceBlowDetector × List Callback × Bool :=
  if !env.faceMeshDefined || !env.cameraDefined then (d, [Callback.onError], false)
  else if env.faceMeshThrows then (d, [Callback.onError], false)
  else
    let d1 := { d with faceMesh := true }
    if env.cameraThrows then (d1, [Callback.onError], false)
    else
      let d2 := { d1 with mpCamera := some ⟨false⟩, running := true }
      if env.cameraStartThrows then (d2, [Callback.onError], false)
      else ({ d2 with mpCamera := some ⟨true⟩ }, [], true)

/-- The `onError` callback installed by `startFaceDetection` (app.js 392-395). -/
def App.onError (a : App) : App :=
  { a with cameraAreaHidden := true, tapBlowBtnHidden := false }

/-- The method `startFaceDetection` (app.js 379-407). -/
def App.startFaceDetection (env : StartEnv) (a : App) : App :=
  let r := (FaceBlowDetector.new true).start env
  let a1 := { a with blowDetector := some r.1 }
  let a2 := r.2.1.foldl (fun s c => if c = Callback.onError then s.onError else s) a1
  if r.2.2 then { a2 with cameraAvailable := true }
  else { a2 with cameraAreaHidden := true, tapBlowBtnHidden := false }

/-- One insertion step of the sort: `x` is placed before the first element at
which the comparator `() => Math.random() - 0.5` answers a negative number; `k`
counts the values drawn from the random source `rnd` so far. -/
def insertRandom (rnd : Nat → ℚ) (x : Nat) : List Nat → Nat → List Nat × Nat
  | [], k => ([x], k)
  | y :: ys, k =>
    if rnd k - 0.5 < 0 then (x :: y :: ys, k + 1)
    else ((y :: (insertRandom rnd x ys (k + 1)).1), (insertRandom rnd x ys (k + 1)).2)

/-- The call `xs.sort(() => Math.random() - 0.5)`. The host's `sort` is not part
of the repository; it is taken to be an insertion sort that asks the comparator
for every placement, each answer drawing the next value of the random source. -/
def randomSort (rnd : Nat → ℚ) (xs : List Nat) : List Nat :=
  (xs.foldl (fun (acc : List Nat × Nat) x => insertRandom rnd x acc.1 acc.2) ([], 0)).1

/-- Where an asynchronous call of the timeline is suspended. -/
inductive Task where
  | blowLoop (rest : List Nat)
  | settle
  | beforeNote
  | polaroid (step : Nat)
  | note (step : Nat)
deriving DecidableEq

/-- How a segment of an asynchronous call ends: suspended at an `await`,
completed, or rejected by an exception. -/
inductive Next where
  | suspended (t : Task)
  | done
  | rejected
deriving DecidableEq

/-- The state of one segment: the app afterwards, the commands issued, and how
the segment ended. -/
structure Seg where
  app : App
  log : List Cmd
  next : Next
deriving DecidableEq

/-- The `for (const i of indices)` loop of `onBlowDetected` (app.js 418-426) up
to its next `await`: one candle is blown and counted, or, with no index left,
the glow is switched off and the music stopped. -/
def blowNext (a : App) : List Nat → Seg
  | [] => ⟨{ a with musicPlaying := false }, [Cmd.glowOff, Cmd.musicStop],
      Next.suspended Task.settle⟩
  | i :: rest =>
    ⟨{ a with candles := a.candles.set i true, candlesLit := a.candlesLit - 1 },
      [Cmd.blowCandle i], Next.suspended (Task.blowLoop rest)⟩

/-- The method `onBlowDetected` (app.js 409-435) from its call to its first
`await`; `rnd` is the random source seen by the sort. -/
def App.onBlowDetected (rnd : Nat → ℚ) (a : App) : Seg :=
  if a.candlesLit ≤ 0 then ⟨a, [], Next.done⟩
  else
    let a1 := { a with
      blowDetector := a.blowDetector.map fun d => { d with running := false }
      cameraAreaHidden := true
      tapBlowBtnHidden := true }
    let indices := randomSort rnd [0, 1, 2]
    blowNext a1 indices

/-- The method `showNote` (app.js 653-667), segment by segment. -/
def showNote (a : App) : Nat → Seg
  | 0 => ⟨a, [Cmd.noteOpen], Next.suspended (Task.note 1)⟩
  | 1 => ⟨a, [], Next.suspended (Task.note 2)⟩
  | 2 => ⟨a, [], Next.suspended (Task.note 3)⟩
  | 3 => ⟨a, [Cmd.confetti 200], Next.suspended (Task.note 4)⟩
  | _ => ⟨a, [Cmd.confetti 80], Next.done⟩

/-- The method `doPolaroidSequence` (app.js 439-484), segment by segment;
`captureThrows` tells whether `capturePhoto()` raises an exception. -/
def doPolaroidSequence (captureThrows : Bool) (a : App) : Nat → Seg
  | 0 => ⟨a, [Cmd.polaroidOpen], Next.suspended (Task.polaroid 1)⟩
  | 1 => ⟨a, [], Next.suspended (Task.polaroid 2)⟩
  | 2 => ⟨a, [], Next.suspended (Task.polaroid 3)⟩
  | 3 => ⟨a, [Cmd.countdown 3], Next.suspended (Task.polaroid 4)⟩
  | 4 => ⟨a, [Cmd.countdown 2], Next.suspended (Task.polaroid 5)⟩
  | 5 => ⟨a, [Cmd.countdown 1], Next.suspended (Task.polaroid 6)⟩
  | 6 =>
    if captureThrows then ⟨a, [Cmd.capturePhoto], Next.rejected⟩
    else ⟨a, [Cmd.capturePhoto, Cmd.shutterSound], Next.suspended (Task.polaroid 7)⟩
  | 7 => ⟨a, [], Next.suspended (Task.polaroid 8)⟩
  | _ =>
    ⟨{ a with blowDetector := a.blowDetector.map fun d => d.stop.1 },
      (if a.blowDetector.isSome then [Cmd.detectorStop] else []) ++
        [Cmd.timestamp, Cmd.sceneActive], Next.done⟩

/-- The method `closePolaroidAndShowNote` (app.js 617-623), bound to the skip
button, up to the first `await` of `showNote`. -/
def App.closePolaroidAndShowNote (a : App) : Seg :=
  let a1 := { a with blowDetector := a.blowDetector.map fun d => d.stop.1 }
  let s := showNote a1 0
  ⟨s.app, (if a.blowDetector.isSome then [Cmd.detectorStop] else []) ++ s.log, s.next⟩

/-- The segment run when a suspended call is resumed by its timer. -/
def resume (captureThrows : Bool) (a : App) : Task → Seg
  | Task.blowLoop rest => blowNext a rest
  | Task.settle =>
    if a.cameraAvailable then doPolaroidSequence captureThrows a 0
    else ⟨a, [], Next.suspended Task.beforeNote⟩
  | Task.beforeNote => showNote a 0
  | Task.polaroid step => doPolaroidSequence captureThrows a step
  | Task.note step => showNote a step

/-- Resuming a call `n` times with no other activity in between; a call that
has ended stays as it is. -/
def drain (captureThrows : Bool) : Nat → Seg → Seg
  | 0, s => s
  | n + 1, s =>
    match s.next with
    | Next.suspended t =>
      let s1 := resume captureThrows s.app t
      drain captureThrows n ⟨s1.app, s.log ++ s1.log, s1.next⟩
    | _ => s

/-- One gesture confirmation run on its own until it ends: the call of
`onBlowDetected` followed by up to 32 resumptions. -/
def runGesture (captureThrows : Bool) (rnd : Nat → ℚ) (a : App) : Seg :=
  drain captureThrows 32 (a.onBlowDetected rnd)

/-- The candles named by the `blowCandle` commands of a log, in order. -/
def blownCandles : List Cmd → List Nat
  | [] => []
  | Cmd.blowCandle i :: cs => i :: blownCandles cs
  | _ :: cs => blownCandles cs

/-- The method `startCelebration` (app.js 368-377): the melody starts, then
face detection is set up. -/
def App.startCelebration (env : StartEnv) (a : App) : App :=
  ({ a with musicPlaying := true }).startFaceDetection env

/-- The app together with the calls of the timeline that are suspended at an
`await`, oldest first, and the commands issued so far. -/
structure World where
  app : App
  tasks : List Task
  log : List Cmd
deriving DecidableEq

/-- What the event loop delivers: a gesture confirmation (a call of
`onBlowDetected`, with the random source its sort sees) or the timer of the
`k`-th suspended call. -/
inductive Event where
  | gesture (rnd : Nat → ℚ)
  | wake (k : Nat)

/-- The suspended calls after the `k`-th one ran a segment that ended as `n`. -/
def reschedule (tasks : List Task) (k : Nat) : Next → List Task
  | Next.suspended t => tasks.set k t
  | _ => tasks.eraseIdx k

/-- The event loop handling one event: segments run one at a time, to their
next `await`. -/
def World.step (captureThrows : Bool) (w : World) : Event → World
  | Event.gesture rnd =>
    let s := w.app.onBlowDetected rnd
    match s.next with
    | Next.suspended t => ⟨s.app, w.tasks ++ [t], w.log ++ s.log⟩
    | _ => ⟨s.app, w.tasks, w.log ++ s.log⟩
  | Event.wake k =>
    match w.tasks[k]? with
    | none => w
    | some t =>
      let s := resume captureThrows w.app t
      ⟨s.app, reschedule w.tasks k s.next, w.log ++ s.log⟩

/-- A host without the MediaPipe globals. -/
def noMediaPipe : StartEnv := ⟨false, false, false, false, false⟩

/-- A host on which the face mesh and the camera start. -/
def cameraWorks : StartEnv := ⟨true, true, false, false, false⟩

/-- A random source that always returns 0. -/
def rndZero : Nat → ℚ := fun _ => 0

/-- A face of 468 landmarks whose four mouth landmarks are the given ones and
whose other landmarks sit at the origin. -/
def mouthFace (upperInner lowerInner leftCorner rightCorner : Landmark) : Face :=
  (List.range 468).map fun i =>
    if i = 13 then upperInner
    else if i = 14 then lowerInner
    else if i = 78 then leftCorner
    else if i = 308 then rightCorner
    else ⟨0, 0⟩

/-- A face in the blowing pose: opening 0.05, width 0.1. -/
def puckeredFace : Face :=
  mouthFace ⟨1/2, 1/2⟩ ⟨1/2, 11/20⟩ ⟨9/20, 1/2⟩ ⟨11/20, 1/2⟩

/-- A face with a closed, wide mouth: opening 0, width 0.2. -/
def relaxedFace : Face :=
  mouthFace ⟨1/2, 1/2⟩ ⟨1/2, 1/2⟩ ⟨2/5, 1/2⟩ ⟨3/5, 1/2⟩

/-- A frame with one face in the blowing pose. -/
def blowFrame : Results := ⟨some [puckeredFace]⟩

/-- A frame with one face that is not in the blowing pose. -/
def restFrame : Results := ⟨some [relaxedFace]⟩

/-- A frame in which no face was found. -/
def emptyFrame : Results := ⟨some []⟩

/-- A running detector part-way to the threshold: five blowing frames counted. -/
def midDetector : FaceBlowDetector :=
  { FaceBlowDetector.new true with running := true, blowFrames := 5 }

/-- A face array cut short after 100 landmarks: indices 13, 14 and 78 are
present, index 308 is `undefined`. -/
def shortFace : Face := List.replicate 100 ⟨1/2, 1/2⟩

/-- A frame whose only face is the short array. -/
def shortFrame : Results := ⟨some [shortFace]⟩

/-! ## Detector: frame classification and debouncing -/

theorem mouthFace_13 (a b c d : Landmark) : (mouthFace a b c d)[13]? = some a := by
  simp [mouthFace, List.getElem?_map, List.getElem?_range]

theorem mouthFace_14 (a b c d : Landmark) : (mouthFace a b c d)[14]? = some b := by
  simp [mouthFace, List.getElem?_map, List.getElem?_range]

theorem mouthFace_78 (a b c d : Landmark) : (mouthFace a b c d)[78]? = some c := by
  simp [mouthFace, List.getElem?_map, List.getElem?_range]

theorem mouthFace_308 (a b c d : Landmark) : (mouthFace a b c d)[308]? = some d := by
  simp [mouthFace, List.getElem?_map, List.getElem?_range]

/-- With the four mouth landmarks present, the classifier is its defining formula. -/
theorem isBlowingPose_eq (landmarks : Face) (up lo l r : Landmark)
    (h13 : landmarks[13]? = some up) (h14 : landmarks[14]? = some lo)
    (h78 : landmarks[78]? = some l) (h308 : landmarks[308]? = some r) :
    isBlowingPose landmarks =
      some (if |r.x - l.x| < 0.001 then false
        else decide (|lo.y - up.y| > 0.01) && decide (|r.x - l.x| < 0.15)
          && decide (|lo.y - up.y| / |r.x - l.x| > 0.25)) := by
  unfold isBlowingPose
  rw [h13, h14, h78, h308]
  simp only []
  split <;> rfl

theorem isBlowingPose_puckeredFace : isBlowingPose puckeredFace = some true := by
  rw [isBlowingPose_eq puckeredFace _ _ _ _ (mouthFace_13 _ _ _ _) (mouthFace_14 _ _ _ _)
    (mouthFace_78 _ _ _ _) (mouthFace_308 _ _ _ _)]
  norm_num [abs_of_nonneg]

theorem isBlowingPose_relaxedFace : isBlowingPose relaxedFace = some false := by
  rw [isBlowingPose_eq relaxedFace _ _ _ _ (mouthFace_13 _ _ _ _) (mouthFace_14 _ _ _ _)
    (mouthFace_78 _ _ _ _) (mouthFace_308 _ _ _ _)]
  norm_num [abs_of_nonneg]

theorem signalOf_blowFrame : signalOf blowFrame = some true := by
  simp [signalOf, blowFrame, isBlowingPose_puckeredFace]

theorem signalOf_restFrame : signalOf restFrame = some false := by
  simp [signalOf, restFrame, isBlowingPose_relaxedFace]

theorem count_onBlow_ready (c : Prop) [Decidable c] :
    List.count Callback.onBlow (if c then [Callback.onReady] else []) = 0 := by
  split <;> simp

/-- A detector that is not running ignores the frame. -/
theorem processResults_stopped (d : FaceBlowDetector) (r : Results)
    (h : d.running = false) : processResults d r = ⟨d, [], false⟩ := by
  simp [processResults, processResultsWith, h]

/-- A blowing frame that leaves the counter below the threshold. -/
theorem processResults_true_below (d : FaceBlowDetector) (r : Results)
    (hr : d.running = true) (hs : signalOf r = some true)
    (hlt : d.blowFrames + 1 < d.blowThreshold) :
    (processResults d r).det = { d with ready := true, blowFrames := d.blowFrames + 1 } ∧
      (processResults d r).calls.count Callback.onBlow = 0 := by
  obtain ⟨m⟩ := r
  rcases m with _ | _ | ⟨f, fs⟩ <;> simp [signalOf] at hs
  have hn : ¬ (d.blowThreshold ≤ d.blowFrames + 1) := not_le.mpr hlt
  simp [processResults, processResultsWith, hr, hs, hn, List.count_cons, count_onBlow_ready]

/-- A blowing frame that brings the counter to the threshold fires `onBlow`
once and stops the detector. -/
theorem processResults_true_reach (d : FaceBlowDetector) (r : Results)
    (hr : d.running = true) (hs : signalOf r = some true)
    (hge : d.blowThreshold ≤ d.blowFrames + 1) :
    (processResults d r).det.running = false ∧
      (processResults d r).calls.count Callback.onBlow = 1 := by
  obtain ⟨m⟩ := r
  rcases m with _ | _ | ⟨f, fs⟩ <;> simp [signalOf] at hs
  simp [processResults, processResultsWith, hr, hs, hge, List.count_cons, count_onBlow_ready]

/-- A frame with a face that is not blowing decays the counter. -/
theorem processResults_false (d : FaceBlowDetector) (r : Results)
    (hr : d.running = true) (hs : signalOf r = some false) :
    (processResults d r).det =
        { d with ready := true, blowFrames := max 0 (d.blowFrames - 2) } ∧
      (processResults d r).calls.count Callback.onBlow = 0 := by
  obtain ⟨m⟩ := r
  rcases m with _ | _ | ⟨f, fs⟩ <;> simp [signalOf] at hs
  simp [processResults, processResultsWith, hr, hs, List.count_cons, count_onBlow_ready]

/-- Every frame invokes `onBlow` at most once, and a frame that does invoke it
leaves the detector stopped. -/
theorem processResults_count (d : FaceBlowDetector) (r : Results) :
    (processResults d r).calls.count Callback.onBlow = 0 ∨
      ((processResults d r).calls.count Callback.onBlow = 1 ∧
        (processResults d r).det.running = false) := by
  obtain ⟨m⟩ := r
  cases hrun : d.running
  · simp [processResults, processResultsWith, hrun]
  · rcases m with _ | _ | ⟨f, fs⟩
    · simp [processResults, processResultsWith, hrun]
    · simp [processResults, processResultsWith, hrun]
    · cases hp : isBlowingPose f with
      | none => simp [processResults, processResultsWith, hrun, hp, count_onBlow_ready]
      | some b =>
        cases b
        · simp [processResults, processResultsWith, hrun, hp, List.count_cons,
            count_onBlow_ready]
        · by_cases hge : d.blowThreshold ≤ d.blowFrames + 1
          · simp [processResults, processResultsWith, hrun, hp, hge, List.count_cons,
              count_onBlow_ready]
          · simp [processResults, processResultsWith, hrun, hp, hge, List.count_cons,
              count_onBlow_ready]

/-! ## Detector: sequences of frames -/

/-- A stopped detector makes no `onBlow` call, whatever frames arrive. -/
theorem blowCounts_stopped (d : FaceBlowDetector) (fs : List Results)
    (h : d.running = false) : blowCounts d fs = List.replicate fs.length 0 := by
  induction fs with
  | nil => rfl
  | cons r rs ih =>
    simp only [blowCounts, trace, List.map_cons, processResults_stopped d r h,
      List.length_cons, List.replicate_succ]
    simpa [blowCounts] using ih

/-- A run of blowing frames that is exactly as long as the distance to the
threshold fires `onBlow` on its last frame and on no other frame. -/
theorem blowCounts_run (m : Nat) : ∀ (d : FaceBlowDetector) (fs : List Results),
    d.running = true → d.blowFrames + (m + 1 : Nat) = d.blowThreshold →
    (fs.take (m + 1)).map signalOf = List.replicate (m + 1) (some true) →
    blowCounts d fs = List.replicate m 0 ++ 1 :: List.replicate (fs.length - (m + 1)) 0 := by
  induction m with
  | zero =>
    intro d fs hr hth hsig
    cases fs with
    | nil => simp at hsig
    | cons r rs =>
      have hs : signalOf r = some true := by simpa using hsig
      have hge : d.blowThreshold ≤ d.blowFrames + 1 := by
        have : d.blowFrames + 1 = d.blowThreshold := by simpa using hth
        omega
      obtain ⟨hstop, hcnt⟩ := processResults_true_reach d r hr hs hge
      have hrest := blowCounts_stopped (processResults d r).det rs hstop
      simp only [blowCounts] at hrest
      simp [blowCounts, trace, hcnt, hrest]
  | succ m ih =>
    intro d fs hr hth hsig
    cases fs with
    | nil => simp at hsig
    | cons r rs =>
      rw [List.take_succ_cons, List.map_cons, List.replicate_succ, List.cons.injEq] at hsig
      obtain ⟨hs, hsig⟩ := hsig
      have hlt : d.blowFrames + 1 < d.blowThreshold := by
        push_cast at hth
        omega
      obtain ⟨hdet, hcnt⟩ := processResults_true_below d r hr hs hlt
      have hnext := ih (processResults d r).det rs (by rw [hdet]; exact hr)
        (by rw [hdet]; show d.blowFrames + 1 + ((m + 1 : Nat) : Int) = d.blowThreshold
            push_cast at hth ⊢; omega) hsig
      simp only [blowCounts] at hnext
      simp [blowCounts, trace, hcnt, hnext, List.replicate_succ]

/-- C1: a running detector with `blowFrames = 0` and `blowThreshold = 15` whose
first `n ≥ 15` frames all have a face classified as blowing invokes `onBlow`
exactly once over the whole sequence, while processing the 15th frame: the
per-frame `onBlow` counts are 0 fourteen times, then 1, then 0 to the end. -/
theorem onBlow_once_on_fifteenth (d : FaceBlowDetector) (fs : List Results) (n : Nat)
    (hr : d.running = true) (h0 : d.blowFrames = 0) (hth : d.blowThreshold = 15)
    (hn : 15 ≤ n)
    (hsig : (fs.take n).map signalOf = List.replicate n (some true)) :
    blowCounts d fs = List.replicate 14 0 ++ 1 :: List.replicate (fs.length - 15) 0 ∧
      (blowCounts d fs).sum = 1 := by
  have h15 : (fs.take 15).map signalOf = List.replicate 15 (some true) := by
    have := congrArg (List.take 15) hsig
    rw [← List.map_take, List.take_take, List.take_replicate, min_eq_left hn] at this
    exact this
  have hmain := blowCounts_run 14 d fs hr (by rw [h0, hth]; norm_num) h15
  refine ⟨hmain, ?_⟩
  rw [hmain]
  simp

/-- C1, on twenty blowing frames from the constructed detector once running. -/
theorem onBlow_once_on_fifteenth_witness :
    blowCounts { FaceBlowDetector.new true with running := true }
        (List.replicate 20 blowFrame) =
      List.replicate 14 0 ++ 1 :: List.replicate 5 0 :=
  (onBlow_once_on_fifteenth { FaceBlowDetector.new true with running := true }
    (List.replicate 20 blowFrame) 20 rfl rfl rfl (by decide)
    (by simp [signalOf_blowFrame])).1

/-- While the reference counter started at the detector's counter stays below
the threshold, no frame fires `onBlow` and the detector's counter follows it. -/
theorem blowCounts_below (bs : List Bool) : ∀ (d : FaceBlowDetector) (fs : List Results),
    d.running = true →
    fs.map signalOf = bs.map some →
    (∀ k ≤ bs.length, (bs.take k).foldl refStep d.blowFrames < d.blowThreshold) →
    blowCounts d fs = List.replicate fs.length 0 ∧
      (detAfter d fs).blowFrames = bs.foldl refStep d.blowFrames ∧
      (detAfter d fs).running = true := by
  induction bs with
  | nil =>
    intro d fs hr hsig _
    have : fs = [] := by simpa using hsig
    subst this
    exact ⟨rfl, rfl, hr⟩
  | cons b bs ih =>
    intro d fs hr hsig hpre
    cases fs with
    | nil => simp at hsig
    | cons r rs =>
      rw [List.map_cons, List.map_cons, List.cons.injEq] at hsig
      obtain ⟨hs, hsig⟩ := hsig
      have h1 : refStep d.blowFrames b < d.blowThreshold := by
        simpa using hpre 1 (by simp)
      have hstep : (processResults d r).det =
            { d with ready := true, blowFrames := refStep d.blowFrames b } ∧
          (processResults d r).calls.count Callback.onBlow = 0 := by
        cases b
        · exact processResults_false d r hr hs
        · exact processResults_true_below d r hr hs (by simpa [refStep] using h1)
      obtain ⟨hdet, hcnt⟩ := hstep
      have hnext := ih (processResults d r).det rs (by rw [hdet]; exact hr) hsig
        (by
          intro k hk
          rw [hdet]
          simpa using hpre (k + 1) (by simpa using hk))
      rw [hdet] at hnext
      obtain ⟨hc, hb, hrun⟩ := hnext
      simp only [blowCounts] at hc
      refine ⟨?_, ?_, ?_⟩
      · simp [blowCounts, trace, hcnt, hdet, hc, List.replicate_succ]
      · simpa [detAfter, hdet] using hb
      · simpa [detAfter, hdet] using hrun

/-- C2: for frames with a face whose blow signals are `bs`, fed to a running
detector with `blowFrames = 0` and `blowThreshold = 15`, if the reference
counter stays below 15 at every prefix of `bs`, no frame invokes `onBlow`
(and the detector's counter ends equal to the reference counter). -/
theorem no_onBlow_below_threshold (d : FaceBlowDetector) (fs : List Results)
    (bs : List Bool)
    (hr : d.running = true) (h0 : d.blowFrames = 0) (hth : d.blowThreshold = 15)
    (hsig : fs.map signalOf = bs.map some)
    (hpre : ∀ k ≤ bs.length, refCounter (bs.take k) < 15) :
    (∀ cs ∈ trace d fs, Callback.onBlow ∉ cs) ∧
      (detAfter d fs).blowFrames = refCounter bs := by
  obtain ⟨hc, hb, _⟩ := blowCounts_below bs d fs hr hsig
    (by rw [h0, hth]; exact hpre)
  refine ⟨?_, by rw [hb, h0]; rfl⟩
  intro cs hcs
  have hmem : cs.count Callback.onBlow ∈ blowCounts d fs :=
    List.mem_map_of_mem (fun cs => cs.count Callback.onBlow) hcs
  rw [hc] at hmem
  exact List.count_eq_zero.mp (List.eq_of_mem_replicate hmem)

/-- C2, on the signals true, true, false, true. -/
theorem no_onBlow_below_threshold_witness :
    (∀ k ≤ 4, refCounter ([true, true, false, true].take k) < 15) ∧
      (∀ cs ∈ trace { FaceBlowDetector.new true with running := true }
          [blowFrame, blowFrame, restFrame, blowFrame], Callback.onBlow ∉ cs) :=
  ⟨by decide,
    (no_onBlow_below_threshold { FaceBlowDetector.new true with running := true }
      [blowFrame, blowFrame, restFrame, blowFrame] [true, true, false, true] rfl rfl rfl
      (by simp [signalOf_blowFrame, signalOf_restFrame]) (by decide)).1⟩

/-- C4: over every frame sequence delivered to a detector, whatever state it
starts from, `onBlow` is invoked at most once; so after an invocation no further
frame invokes it again. -/
theorem onBlow_at_most_once (d : FaceBlowDetector) (fs : List Results) :
    (blowCounts d fs).sum ≤ 1 := by
  induction fs generalizing d with
  | nil => simp [blowCounts, trace]
  | cons r rs ih =>
    have hsplit : (blowCounts d (r :: rs)).sum =
        (processResults d r).calls.count Callback.onBlow +
          (blowCounts (processResults d r).det rs).sum := by
      simp [blowCounts, trace]
    rw [hsplit]
    rcases processResults_count d r with h0 | ⟨h1, hstop⟩
    · rw [h0, zero_add]
      exact ih _
    · rw [h1, blowCounts_stopped _ rs hstop]
      simp

/-- C5 as stated fails: on a frame without faces a running detector with
`blowFrames = 5` keeps 5, where the claim asks for `max(0, 5 - 2) = 3`, the value
a frame with a face that is not blowing produces. -/
theorem noFace_counter_kept :
    midDetector.running = true ∧ midDetector.blowFrames = 5 ∧
      (processResults midDetector emptyFrame).det.blowFrames = 5 ∧
      (processResults midDetector ⟨none⟩).det.blowFrames = 5 ∧
      max 0 (midDetector.blowFrames - 2) = 3 ∧
      (processResults midDetector restFrame).det.blowFrames = 3 := by
  refine ⟨rfl, rfl, ?_, ?_, by decide, ?_⟩
  · simp [processResults, processResultsWith, midDetector, emptyFrame]
  · simp [processResults, processResultsWith, midDetector]
  · rw [(processResults_false midDetector restFrame rfl signalOf_restFrame).1]
    decide

/-- C5 amended: on a frame without faces (`multiFaceLandmarks` missing or empty)
a running detector invokes `onBlowing(false)` and nothing else, whatever the pose
classifier is (it is not consulted), and every field of the detector, `blowFrames`
included, keeps its value. -/
theorem noFace_frame_effect (pose : Face → Option Bool) (d : FaceBlowDetector)
    (r : Results) (hr : d.running = true)
    (hf : r.multiFaceLandmarks = none ∨ r.multiFaceLandmarks = some []) :
    processResultsWith pose d r = ⟨d, [Callback.onBlowing false], false⟩ ∧
      processResults d r = ⟨d, [Callback.onBlowing false], false⟩ := by
  obtain ⟨m⟩ := r
  rcases hf with hf | hf <;> simp at hf <;> subst hf <;>
    simp [processResults, processResultsWith, hr]

/-- C5 amended, at the detector with five counted frames and an empty face list. -/
theorem noFace_frame_effect_witness :
    processResults midDetector emptyFrame =
      ⟨midDetector, [Callback.onBlowing false], false⟩ :=
  (noFace_frame_effect isBlowingPose midDetector emptyFrame rfl (Or.inr rfl)).2

/-- A stopped detector invokes no callback and keeps its state over any frames. -/
theorem trace_stopped (d : FaceBlowDetector) (fs : List Results)
    (h : d.running = false) :
    (∀ cs ∈ trace d fs, cs = []) ∧ detAfter d fs = d := by
  induction fs with
  | nil => simp [trace, detAfter]
  | cons r rs ih =>
    simp only [trace, detAfter, processResults_stopped d r h, List.mem_cons]
    exact ⟨fun cs hcs => hcs.elim id (ih.1 cs), ih.2⟩

/-- C10: after `stop()`, processing any frames invokes no callback and leaves the
detector, `blowFrames` and `ready` included, as `stop()` left it; `stop()` keeps
`blowFrames` and `ready`; a second `stop()` gives the same detector state; and with
`mpCamera = null` the method makes no camera call and only clears `running`. -/
theorem stop_silences (d : FaceBlowDetector) (fs : List Results) :
    (∀ cs ∈ trace d.stop.1 fs, cs = []) ∧
      detAfter d.stop.1 fs = d.stop.1 ∧
      (∀ r, processResults d.stop.1 r = ⟨d.stop.1, [], false⟩) ∧
      d.stop.1.blowFrames = d.blowFrames ∧ d.stop.1.ready = d.ready ∧
      d.stop.1.stop.1 = d.stop.1 ∧
      ({ d with mpCamera := none }).stop = ({ d with mpCamera := none, running := false }, 0) := by
  have hstop : d.stop.1.running = false := by
    unfold FaceBlowDetector.stop
    cases d.mpCamera <;> rfl
  refine ⟨(trace_stopped _ fs hstop).1, (trace_stopped _ fs hstop).2,
    fun r => processResults_stopped _ r hstop, ?_, ?_, ?_, rfl⟩
  · unfold FaceBlowDetector.stop
    cases d.mpCamera <;> rfl
  · unfold FaceBlowDetector.stop
    cases d.mpCamera <;> rfl
  · unfold FaceBlowDetector.stop
    cases d.mpCamera <;> rfl

/-! ## Timeline -/

theorem randomSort_rndZero : randomSort rndZero [0, 1, 2] = [2, 1, 0] := by
  norm_num [randomSort, insertRandom, rndZero]

theorem insertRandom_perm (rnd : Nat → ℚ) (x : Nat) (ys : List Nat) :
    ∀ k, (insertRandom rnd x ys k).1.Perm (x :: ys) := by
  induction ys with
  | nil => intro k; exact List.Perm.refl _
  | cons y ys ih =>
    intro k
    unfold insertRandom
    split
    · exact List.Perm.refl _
    · exact ((ih (k + 1)).cons y).trans (List.Perm.swap x y ys)

theorem foldl_insertRandom_perm (rnd : Nat → ℚ) (xs : List Nat) :
    ∀ acc : List Nat × Nat,
      (xs.foldl (fun (acc : List Nat × Nat) x => insertRandom rnd x acc.1 acc.2) acc).1.Perm
        (xs ++ acc.1) := by
  induction xs with
  | nil => intro acc; exact List.Perm.refl _
  | cons x xs ih =>
    intro acc
    rw [List.foldl_cons]
    refine (ih _).trans ?_
    refine (List.Perm.append_left xs (insertRandom_perm rnd x acc.1 acc.2)).trans ?_
    exact List.perm_middle

/-- Whatever the random source answers, the sort returns a rearrangement. -/
theorem randomSort_perm (rnd : Nat → ℚ) (xs : List Nat) : (randomSort rnd xs).Perm xs := by
  have h := foldl_insertRandom_perm rnd xs ([], 0)
  simpa [randomSort] using h

/-- The shuffled candle indices are three numbers that rearrange 0, 1, 2. -/
theorem randomSort_three (rnd : Nat → ℚ) :
    ∃ i j k, randomSort rnd [0, 1, 2] = [i, j, k] ∧ [i, j, k].Perm [0, 1, 2] := by
  have h := randomSort_perm rnd [0, 1, 2]
  have hlen := h.length_eq
  match hs : randomSort rnd [0, 1, 2], hlen with
  | [i, j, k], _ => exact ⟨i, j, k, rfl, hs ▸ h⟩

/-- Blowing three candles that rearrange 0, 1, 2 leaves all three blown. -/
theorem set_three (cs : List Bool) (i j k : Nat) (hlen : cs.length = 3)
    (hp : [i, j, k].Perm [0, 1, 2]) :
    ((cs.set i true).set j true).set k true = [true, true, true] := by
  match cs, hlen with
  | [a, b, c], _ =>
    have hi : i ∈ [0, 1, 2] := hp.subset (by simp)
    have hj : j ∈ [0, 1, 2] := hp.subset (by simp)
    have hk : k ∈ [0, 1, 2] := hp.subset (by simp)
    simp only [List.mem_cons, List.mem_singleton, List.not_mem_nil, or_false] at hi hj hk
    rcases hi with rfl | rfl | rfl <;> rcases hj with rfl | rfl | rfl <;>
      rcases hk with rfl | rfl | rfl <;>
      first
        | rfl
        | (exfalso; revert hp; decide)

/-- The guard of `onBlowDetected`: with no candle left lit the call returns at
once, leaving the app as it is and issuing no command. -/
theorem onBlowDetected_guard (rnd : Nat → ℚ) (a : App) (h : a.candlesLit ≤ 0) :
    a.onBlowDetected rnd = ⟨a, [], Next.done⟩ := by
  simp [App.onBlowDetected, h]

/-- The state when the candle loop has run its three iterations. -/
theorem loopEnd_eq (ct : Bool) (rnd : Nat → ℚ) (a : App) (i j k : Nat)
    (hpos : 0 < a.candlesLit) (hs : randomSort rnd [0, 1, 2] = [i, j, k]) :
    drain ct 2 (a.onBlowDetected rnd) =
      ⟨{ a with
          blowDetector := a.blowDetector.map fun d => { d with running := false }
          cameraAreaHidden := true
          tapBlowBtnHidden := true
          candles := ((a.candles.set i true).set j true).set k true
          candlesLit := a.candlesLit - 1 - 1 - 1 },
        [Cmd.blowCandle i, Cmd.blowCandle j, Cmd.blowCandle k],
        Next.suspended (Task.blowLoop [])⟩ := by
  have hn : ¬ a.candlesLit ≤ 0 := not_le.mpr hpos
  simp [drain, App.onBlowDetected, hn, hs, blowNext, resume]

/-- A gesture run on its own when no camera session is available. -/
theorem runGesture_noCamera (ct : Bool) (rnd : Nat → ℚ) (a : App) (i j k : Nat)
    (hpos : 0 < a.candlesLit) (hcam : a.cameraAvailable = false)
    (hs : randomSort rnd [0, 1, 2] = [i, j, k]) :
    runGesture ct rnd a =
      ⟨{ a with
          blowDetector := a.blowDetector.map fun d => { d with running := false }
          cameraAreaHidden := true
          tapBlowBtnHidden := true
          candles := ((a.candles.set i true).set j true).set k true
          candlesLit := a.candlesLit - 1 - 1 - 1
          musicPlaying := false },
        [Cmd.blowCandle i, Cmd.blowCandle j, Cmd.blowCandle k, Cmd.glowOff, Cmd.musicStop,
          Cmd.noteOpen, Cmd.confetti 200, Cmd.confetti 80],
        Next.done⟩ := by
  have hn : ¬ a.candlesLit ≤ 0 := not_le.mpr hpos
  simp [runGesture, drain, App.onBlowDetected, hn, hs, hcam, blowNext, resume, showNote]

/-- A gesture run on its own when a camera session is available. -/
theorem runGesture_camera (ct : Bool) (rnd : Nat → ℚ) (a : App) (i j k : Nat)
    (hpos : 0 < a.candlesLit) (hcam : a.cameraAvailable = true)
    (hs : randomSort rnd [0, 1, 2] = [i, j, k]) :
    (runGesture ct rnd a).app.candlesLit = a.candlesLit - 1 - 1 - 1 ∧
      (runGesture ct rnd a).app.cameraAvailable = true ∧
      (runGesture ct rnd a).app.musicPlaying = false ∧
      (runGesture ct rnd a).next = (if ct then Next.rejected else Next.done) ∧
      (runGesture ct rnd a).log =
        [Cmd.blowCandle i, Cmd.blowCandle j, Cmd.blowCandle k, Cmd.glowOff, Cmd.musicStop,
          Cmd.polaroidOpen, Cmd.countdown 3, Cmd.countdown 2, Cmd.countdown 1,
          Cmd.capturePhoto] ++
        (if ct then [] else
          [Cmd.shutterSound] ++ (if a.blowDetector.isSome then [Cmd.detectorStop] else []) ++
            [Cmd.timestamp, Cmd.sceneActive]) := by
  have hn : ¬ a.candlesLit ≤ 0 := not_le.mpr hpos
  cases ct <;> cases hd : a.blowDetector <;>
    simp [runGesture, drain, App.onBlowDetected, hn, hs, hcam, hd, blowNext, resume,
      doPolaroidSequence]

/-- What `startCelebration` leaves behind on a fresh app, by the outcome of
`FaceBlowDetector.start`. -/
theorem startCelebration_fields (env : StartEnv) :
    (App.new.startCelebration env).candlesLit = 3 ∧
      (App.new.startCelebration env).candles = [false, false, false] ∧
      (App.new.startCelebration env).cameraAvailable =
        ((FaceBlowDetector.new true).start env).2.2 ∧
      (((FaceBlowDetector.new true).start env).2.2 = false →
        (App.new.startCelebration env).tapBlowBtnHidden = false ∧
          ((FaceBlowDetector.new true).start env).2.1 = [Callback.onError]) := by
  obtain ⟨a, b, c, d, e⟩ := env
  cases a <;> cases b <;> cases c <;> cases d <;> cases e <;>
    simp [App.startCelebration, App.startFaceDetection, FaceBlowDetector.start, App.new,
      App.onError, FaceBlowDetector.new]

/-- A gesture run on its own from three lit candles ends with none lit. -/
theorem runGesture_candlesLit (ct : Bool) (rnd : Nat → ℚ) (a : App)
    (h3 : a.candlesLit = 3) : (runGesture ct rnd a).app.candlesLit = 0 := by
  obtain ⟨i, j, k, hs, _⟩ := randomSort_three rnd
  have hpos : 0 < a.candlesLit := by rw [h3]; decide
  cases hcam : a.cameraAvailable
  · rw [runGesture_noCamera ct rnd a i j k hpos hcam hs]
    simp [h3]
  · rw [(runGesture_camera ct rnd a i j k hpos hcam hs).1, h3]
    decide

/-- C7: in the Revealed stage, reached when a gesture run that started with three
lit candles has ended (with the note shown directly, or after the skip button
closed the polaroid), a further gesture confirmation returns at the guard: the
app, with `candlesLit`, `cameraAvailable` and the detector's `running` flag, is
unchanged, no command is issued and nothing is left suspended. -/
theorem gesture_in_revealed_noop (ct : Bool) (rnd rnd2 : Nat → ℚ) (a0 : App)
    (h3 : a0.candlesLit = 3) :
    (runGesture ct rnd a0).app.onBlowDetected rnd2 =
        ⟨(runGesture ct rnd a0).app, [], Next.done⟩ ∧
      (runGesture ct rnd a0).app.closePolaroidAndShowNote.app.onBlowDetected rnd2 =
        ⟨(runGesture ct rnd a0).app.closePolaroidAndShowNote.app, [], Next.done⟩ := by
  have h0 := runGesture_candlesLit ct rnd a0 h3
  refine ⟨onBlowDetected_guard rnd2 _ (le_of_eq h0), onBlowDetected_guard rnd2 _ ?_⟩
  have : (runGesture ct rnd a0).app.closePolaroidAndShowNote.app.candlesLit =
      (runGesture ct rnd a0).app.candlesLit := by
    simp [App.closePolaroidAndShowNote, showNote]
  rw [this, h0]

/-- C7, after the manual gesture on the app whose camera start failed. -/
theorem gesture_in_revealed_noop_witness :
    (App.new.startCelebration noMediaPipe).candlesLit = 3 ∧
      (runGesture false rndZero (App.new.startCelebration noMediaPipe)).app.onBlowDetected
          rndZero =
        ⟨(runGesture false rndZero (App.new.startCelebration noMediaPipe)).app, [],
          Next.done⟩ :=
  ⟨(startCelebration_fields noMediaPipe).1,
    (gesture_in_revealed_noop false rndZero rndZero (App.new.startCelebration noMediaPipe)
      (startCelebration_fields noMediaPipe).1).1⟩

/-- C8: whatever values the random source returns, a gesture run started with
three lit, unblown candles has, when its loop has made its three iterations
(the call and two resumptions), blown candles in an order that rearranges
0, 1, 2, so each candle exactly once, all three are marked blown, `candlesLit`
is 0 and no index is left; the whole run blows no further candle. -/
theorem candles_blown_permutation (ct : Bool) (rnd : Nat → ℚ) (a : App)
    (h3 : a.candlesLit = 3) (hc : a.candles = [false, false, false]) :
    (blownCandles (drain ct 2 (a.onBlowDetected rnd)).log).Perm [0, 1, 2] ∧
      (drain ct 2 (a.onBlowDetected rnd)).app.candlesLit = 0 ∧
      (drain ct 2 (a.onBlowDetected rnd)).app.candles = [true, true, true] ∧
      (drain ct 2 (a.onBlowDetected rnd)).next = Next.suspended (Task.blowLoop []) ∧
      (blownCandles (runGesture ct rnd a).log).Perm [0, 1, 2] ∧
      (runGesture ct rnd a).app.candlesLit = 0 := by
  obtain ⟨i, j, k, hs, hp⟩ := randomSort_three rnd
  have hpos : 0 < a.candlesLit := by rw [h3]; decide
  rw [loopEnd_eq ct rnd a i j k hpos hs]
  refine ⟨by simpa [blownCandles] using hp, by simp [h3],
    set_three a.candles i j k (by rw [hc]; rfl) hp, rfl, ?_,
    runGesture_candlesLit ct rnd a h3⟩
  cases hcam : a.cameraAvailable
  · rw [runGesture_noCamera ct rnd a i j k hpos hcam hs]
    simpa [blownCandles] using hp
  · rw [(runGesture_camera ct rnd a i j k hpos hcam hs).2.2.2.2]
    cases ct <;> cases a.blowDetector <;> simpa [blownCandles] using hp

/-- C8, on the fresh app with the random source that always returns 0. -/
theorem candles_blown_permutation_witness :
    blownCandles (drain false 2 (App.new.onBlowDetected rndZero)).log = [2, 1, 0] ∧
      (blownCandles (drain false 2 (App.new.onBlowDetected rndZero)).log).Perm [0, 1, 2] ∧
      (drain false 2 (App.new.onBlowDetected rndZero)).app.candlesLit = 0 :=
  ⟨by simp [loopEnd_eq false rndZero App.new 2 1 0 (by decide) randomSort_rndZero,
      blownCandles],
    (candles_blown_permutation false rndZero App.new rfl rfl).1,
    (candles_blown_permutation false rndZero App.new rfl rfl).2.1⟩

/-- C9: on a fresh app, if `FaceBlowDetector.start` returns `false` then
`onError` was called, the manual button is shown and `cameraAvailable` stays
`false`, and a manual gesture confirmation run to its end blows the three candles
in an order that rearranges 0, 1, 2, stops the music and opens the note, with no
command of the capture sequence; if `start` returns `true`, `cameraAvailable` is
set and the run opens the capture sequence right after the third candle, the
glow and the music stop. -/
theorem fallback_skips_capture (env : StartEnv) (ct : Bool) (rnd : Nat → ℚ) :
    (((FaceBlowDetector.new true).start env).2.2 = false →
      ((FaceBlowDetector.new true).start env).2.1 = [Callback.onError] ∧
      (App.new.startCelebration env).tapBlowBtnHidden = false ∧
      (App.new.startCelebration env).cameraAvailable = false ∧
      (runGesture ct rnd (App.new.startCelebration env)).next = Next.done ∧
      (runGesture ct rnd (App.new.startCelebration env)).app.candlesLit = 0 ∧
      (runGesture ct rnd (App.new.startCelebration env)).app.candles = [true, true, true] ∧
      (runGesture ct rnd (App.new.startCelebration env)).app.musicPlaying = false ∧
      ∃ i j k, [i, j, k].Perm [0, 1, 2] ∧
        (runGesture ct rnd (App.new.startCelebration env)).log =
          [Cmd.blowCandle i, Cmd.blowCandle j, Cmd.blowCandle k, Cmd.glowOff, Cmd.musicStop,
            Cmd.noteOpen, Cmd.confetti 200, Cmd.confetti 80]) ∧
    (((FaceBlowDetector.new true).start env).2.2 = true →
      (App.new.startCelebration env).cameraAvailable = true ∧
      ∃ i j k, [i, j, k].Perm [0, 1, 2] ∧
        (runGesture ct rnd (App.new.startCelebration env)).log.take 6 =
          [Cmd.blowCandle i, Cmd.blowCandle j, Cmd.blowCandle k, Cmd.glowOff, Cmd.musicStop,
            Cmd.polaroidOpen]) := by
  obtain ⟨h3, hc, hcam, hfail⟩ := startCelebration_fields env
  obtain ⟨i, j, k, hs, hp⟩ := randomSort_three rnd
  have hpos : 0 < (App.new.startCelebration env).candlesLit := by rw [h3]; decide
  constructor
  · intro hok
    rw [hok] at hcam
    obtain ⟨htap, herr⟩ := hfail hok
    rw [runGesture_noCamera ct rnd _ i j k hpos hcam hs]
    refine ⟨herr, htap, hcam, rfl, by simp [h3], ?_, rfl, i, j, k, hp, rfl⟩
    exact set_three _ i j k (by rw [hc]; rfl) hp
  · intro hok
    rw [hok] at hcam
    refine ⟨hcam, i, j, k, hp, ?_⟩
    rw [(runGesture_camera ct rnd _ i j k hpos hcam hs).2.2.2.2]
    rfl

/-- C9, on a host without MediaPipe and on a host whose camera starts. -/
theorem fallback_skips_capture_witness :
    ((FaceBlowDetector.new true).start noMediaPipe).2.2 = false ∧
      (runGesture false rndZero (App.new.startCelebration noMediaPipe)).next = Next.done ∧
      ((FaceBlowDetector.new true).start cameraWorks).2.2 = true ∧
      (App.new.startCelebration cameraWorks).cameraAvailable = true :=
  ⟨rfl, ((fallback_skips_capture noMediaPipe false rndZero).1 rfl).2.2.2.1, rfl,
    ((fallback_skips_capture cameraWorks false rndZero).2 rfl).1⟩

/-! ## Detector: absent landmarks -/

/-- With one of the four mouth landmarks `undefined`, reading its coordinate
throws: the classifier returns nothing. -/
theorem isBlowingPose_absent (landmarks : Face)
    (h : landmarks[13]? = none ∨ landmarks[14]? = none ∨ landmarks[78]? = none ∨
      landmarks[308]? = none) : isBlowingPose landmarks = none := by
  unfold isBlowingPose
  split
  · rename_i h13 h14 h78 h308
    rw [h13, h14, h78, h308] at h
    simp at h
  · rfl

/-- A frame on which the classifier throws: the detector is marked ready,
`onReady` is called on the first face, and the exception leaves the method
before `onBlowing` is called or the counter is touched. -/
theorem processResults_throw (d : FaceBlowDetector) (face0 : Face) (rest : List Face)
    (hr : d.running = true) (hp : isBlowingPose face0 = none) :
    processResults d ⟨some (face0 :: rest)⟩ =
      ⟨{ d with ready := true },
        if !d.ready && d.hasOnReady then [Callback.onReady] else [], true⟩ := by
  simp [processResults, processResultsWith, hr, hp]

theorem shortFace_308 : shortFace[308]? = none := by
  simp [shortFace]

/-- C12 as stated fails: on a face array of 100 landmarks, where landmark 308
is absent, `isBlowingPose` does not return `false` but throws, and a running
detector with `blowFrames = 5` ends the frame with an exception, `onReady` called,
no `onBlowing` call and the counter still 5, where a not-blowing frame calls
`onBlowing(false)` and brings the counter to 3. -/
theorem missing_landmark_not_false :
    shortFace[308]? = none ∧
      isBlowingPose shortFace = none ∧
      isBlowingPose shortFace ≠ some false ∧
      processResults midDetector shortFrame =
        ⟨{ midDetector with ready := true }, [Callback.onReady], true⟩ ∧
      (processResults midDetector shortFrame).det.blowFrames = 5 ∧
      (processResults midDetector restFrame).det.blowFrames = 3 := by
  have hp : isBlowingPose shortFace = none :=
    isBlowingPose_absent shortFace (Or.inr (Or.inr (Or.inr shortFace_308)))
  have hstep := processResults_throw midDetector shortFace [] rfl hp
  refine ⟨shortFace_308, hp, by rw [hp]; simp, ?_, ?_, ?_⟩
  · rw [shortFrame, hstep]
    rfl
  · rw [shortFrame, hstep]
    rfl
  · rw [(processResults_false midDetector restFrame rfl signalOf_restFrame).1]
    decide

/-- C12 amended: for every landmark array in which one of the landmarks 13, 14,
78, 308 is absent, `isBlowingPose` does not return: it throws. A running detector
given such a face ends the frame with that exception, after marking itself ready
(`onReady` is the only callback it can have made); `onBlowing` and `onBlow` are
not called and every other field, `blowFrames` included, keeps its value. -/
theorem missing_landmark_throws (landmarks : Face) (d : FaceBlowDetector)
    (rest : List Face)
    (h : landmarks[13]? = none ∨ landmarks[14]? = none ∨ landmarks[78]? = none ∨
      landmarks[308]? = none)
    (hr : d.running = true) :
    isBlowingPose landmarks = none ∧
      (processResults d ⟨some (landmarks :: rest)⟩).threw = true ∧
      (processResults d ⟨some (landmarks :: rest)⟩).det = { d with ready := true } ∧
      (∀ c ∈ (processResults d ⟨some (landmarks :: rest)⟩).calls, c = Callback.onReady) := by
  have hp := isBlowingPose_absent landmarks h
  rw [processResults_throw d landmarks rest hr hp]
  refine ⟨hp, rfl, rfl, ?_⟩
  intro c hc
  split at hc
  · simpa using hc
  · simp at hc

/-- C12 amended, at the face array of 100 landmarks and the detector with five
counted frames. -/
theorem missing_landmark_throws_witness :
    shortFace[308]? = none ∧ midDetector.running = true ∧
      isBlowingPose shortFace = none ∧
      (processResults midDetector ⟨some [shortFace]⟩).threw = true :=
  ⟨shortFace_308, rfl,
    (missing_landmark_throws shortFace midDetector []
      (Or.inr (Or.inr (Or.inr shortFace_308))) rfl).1,
    (missing_landmark_throws shortFace midDetector []
      (Or.inr (Or.inr (Or.inr shortFace_308))) rfl).2.1⟩

/-! ## Timeline: a failing capture -/

/-- A gesture run on its own, with a camera session, when `capturePhoto()` throws:
the run ends rejected right at the capture. -/
theorem runGesture_captureThrows (rnd : Nat → ℚ) (a : App) (i j k : Nat)
    (hpos : 0 < a.candlesLit) (hcam : a.cameraAvailable = true)
    (hs : randomSort rnd [0, 1, 2] = [i, j, k]) :
    runGesture true rnd a =
      ⟨{ a with
          blowDetector := a.blowDetector.map fun d => { d with running := false }
          cameraAreaHidden := true
          tapBlowBtnHidden := true
          candles := ((a.candles.set i true).set j true).set k true
          candlesLit := a.candlesLit - 1 - 1 - 1
          musicPlaying := false },
        [Cmd.blowCandle i, Cmd.blowCandle j, Cmd.blowCandle k, Cmd.glowOff, Cmd.musicStop,
          Cmd.polaroidOpen, Cmd.countdown 3, Cmd.countdown 2, Cmd.countdown 1,
          Cmd.capturePhoto],
        Next.rejected⟩ := by
  have hn : ¬ a.candlesLit ≤ 0 := not_le.mpr hpos
  simp [runGesture, drain, App.onBlowDetected, hn, hs, hcam, blowNext, resume,
    doPolaroidSequence]

/-- The fresh app after a camera start that succeeded. -/
theorem startCelebration_cameraWorks :
    (App.new.startCelebration cameraWorks).candlesLit = 3 ∧
      (App.new.startCelebration cameraWorks).cameraAvailable = true ∧
      (App.new.startCelebration cameraWorks).blowDetector.isSome = true := by
  simp [App.startCelebration, App.startFaceDetection, FaceBlowDetector.start, App.new,
    cameraWorks, FaceBlowDetector.new]

/-- C11 as stated fails: with a camera session and a `capturePhoto()` that throws,
the gesture run ends rejected at the capture; neither the detector teardown nor
the note is issued, where the run with a working capture ends normally and stops
the detector. -/
theorem capture_failure_not_recovered :
    (runGesture true rndZero (App.new.startCelebration cameraWorks)).next = Next.rejected ∧
      (runGesture true rndZero (App.new.startCelebration cameraWorks)).log =
        [Cmd.blowCandle 2, Cmd.blowCandle 1, Cmd.blowCandle 0, Cmd.glowOff, Cmd.musicStop,
          Cmd.polaroidOpen, Cmd.countdown 3, Cmd.countdown 2, Cmd.countdown 1,
          Cmd.capturePhoto] ∧
      Cmd.detectorStop ∉ (runGesture true rndZero (App.new.startCelebration cameraWorks)).log ∧
      Cmd.noteOpen ∉ (runGesture true rndZero (App.new.startCelebration cameraWorks)).log ∧
      (runGesture false rndZero (App.new.startCelebration cameraWorks)).next = Next.done ∧
      Cmd.detectorStop ∈
        (runGesture false rndZero (App.new.startCelebration cameraWorks)).log := by
  obtain ⟨h3, hcam, hdet⟩ := startCelebration_cameraWorks
  have hpos : 0 < (App.new.startCelebration cameraWorks).candlesLit := by rw [h3]; decide
  have hthrow := runGesture_captureThrows rndZero _ 2 1 0 hpos hcam randomSort_rndZero
  obtain ⟨_, _, _, hnext, hlog⟩ :=
    runGesture_camera false rndZero _ 2 1 0 hpos hcam randomSort_rndZero
  rw [hthrow, hnext, hlog, hdet]
  simp

/-- C11 amended: when a gesture run started with three lit candles has a camera
session and `capturePhoto()` throws, the exception is not caught and the run ends
rejected. By then the three candles are blown, the music is stopped and the
detector's `running` flag is cleared; the capture is the last command: no shutter
cue, no `detector.stop()`, no timestamp and no note follow. A skip command
(`closePolaroidAndShowNote`) given afterwards stops the detector and opens the note. -/
theorem capture_failure_rejects (rnd : Nat → ℚ) (a : App)
    (h3 : a.candlesLit = 3) (hcam : a.cameraAvailable = true) :
    (runGesture true rnd a).next = Next.rejected ∧
      (∃ i j k, [i, j, k].Perm [0, 1, 2] ∧
        (runGesture true rnd a).log =
          [Cmd.blowCandle i, Cmd.blowCandle j, Cmd.blowCandle k, Cmd.glowOff, Cmd.musicStop,
            Cmd.polaroidOpen, Cmd.countdown 3, Cmd.countdown 2, Cmd.countdown 1,
            Cmd.capturePhoto]) ∧
      (runGesture true rnd a).app.candlesLit = 0 ∧
      (runGesture true rnd a).app.musicPlaying = false ∧
      (runGesture true rnd a).app.blowDetector =
        a.blowDetector.map (fun d => { d with running := false }) ∧
      (runGesture true rnd a).app.closePolaroidAndShowNote.log =
        (if a.blowDetector.isSome then [Cmd.detectorStop] else []) ++ [Cmd.noteOpen] := by
  obtain ⟨i, j, k, hs, hp⟩ := randomSort_three rnd
  have hpos : 0 < a.candlesLit := by rw [h3]; decide
  rw [runGesture_captureThrows rnd a i j k hpos hcam hs]
  refine ⟨rfl, ⟨i, j, k, hp, rfl⟩, by simp [h3], rfl, rfl, ?_⟩
  cases a.blowDetector <;> simp [App.closePolaroidAndShowNote, showNote]

/-- C11 amended, on the fresh app whose camera started, with the random source
that always returns 0. -/
theorem capture_failure_rejects_witness :
    (App.new.startCelebration cameraWorks).candlesLit = 3 ∧
      (App.new.startCelebration cameraWorks).cameraAvailable = true ∧
      (runGesture true rndZero (App.new.startCelebration cameraWorks)).next = Next.rejected :=
  ⟨startCelebration_cameraWorks.1, startCelebration_cameraWorks.2.1,
    (capture_failure_rejects rndZero (App.new.startCelebration cameraWorks)
      startCelebration_cameraWorks.1 startCelebration_cameraWorks.2.1).1⟩


end Cake
